import Mathlib

/-
Verification of the tacotruck-action configuration and submission pipeline
(src/index.ts, src/utils.ts).

The TypeScript source is shallowly embedded below.  JavaScript string
methods used by the source (split, trim, toLowerCase) are modelled as
structurally recursive functions over the character list of a string, so
that every definition evaluates inside the kernel.  Filesystem reads,
JSON.parse and the zod URL check are external effects; they enter the
embedding as explicit parameters (parse results as Option values, the URL
check as a Boolean predicate).
-/

namespace TacoTruck

/-! ### JavaScript string primitives -/

/-- JS String.prototype.split with a single-character separator:
splitting never drops empty segments and an empty input yields one
empty segment, matching ECMAScript semantics. -/
def jsSplitAux (sep : Char) : List Char → List Char → List String
  | [], acc => [String.mk acc.reverse]
  | c :: cs, acc =>
    if c = sep then String.mk acc.reverse :: jsSplitAux sep cs []
    else jsSplitAux sep cs (c :: acc)

def jsSplit (s : String) (sep : Char) : List String :=
  jsSplitAux sep s.data []

/-- JS String.prototype.trim: strip whitespace from both ends. -/
def jsTrim (s : String) : String :=
  String.mk (((s.data.dropWhile Char.isWhitespace).reverse.dropWhile
    Char.isWhitespace).reverse)

/-- JS String.prototype.toLowerCase restricted to the ASCII range the
source exercises. -/
def jsToLower (s : String) : String :=
  String.mk (s.data.map Char.toLower)

/-- JS falsiness of a string value: only the empty string is falsy. -/
def jsFalsyStr (s : String) : Bool := s.data.isEmpty

/-- JS falsiness of a possibly-undefined string: undefined and the empty
string are falsy. -/
def jsFalsyOptStr : Option String → Bool
  | none => true
  | some s => s.data.isEmpty

/-! ### JSON value model

JSON values appearing in the config sources.  Objects are modelled one
level deep as partial maps from keys to values, which is all the merge
code in parseConfiguration inspects. -/

inductive JVal where
  | str (s : String)
  | num (n : Int)
  | bool (b : Bool)
  | null
deriving DecidableEq, Repr

/-- JS truthiness of a defined JSON value. -/
def JVal.truthy : JVal → Bool
  | .str s => !s.data.isEmpty
  | .num n => n != 0
  | .bool b => b
  | .null => false

/-- A parsed JSON object: partial map from keys to values. -/
def Obj := String → Option JVal

/-- The object spread `{ ...base, ...over }` : a key defined in the
overriding object wins, defined or not in the base. -/
def spread (base over : Obj) : Obj := fun k =>
  match over k with
  | some v => some v
  | none => base k

/-- JS `a || b` on possibly-undefined JSON values: the left operand wins
exactly when it is defined and truthy. -/
def jsOr (a b : Option JVal) : Option JVal :=
  match a with
  | some v => if v.truthy then some v else b
  | none => b

/-- JS `a || d` with a defined fallback value. -/
def jsOrDefault (a : Option JVal) (d : JVal) : JVal :=
  match a with
  | some v => if v.truthy then v else d
  | none => d

/-! ### Configuration data model (src/index.ts lines 8-41) -/

/-- The direct named action inputs read in parseConfiguration
(results-path, credentials, base-url, fail-on-error); the provider input
is passed separately because the source lower-cases and switches on it. -/
structure DirectInputs where
  resultsPath : String
  credentials : String
  baseUrl : String
  failOnError : Bool
deriving DecidableEq

/-- The raw config object assembled per provider branch before schema
validation.  Typed fields come from the direct inputs; Option JVal
fields come from the merged JSON sources.  Fields the zod schemas do not
declare (projectId, suiteId, milestoneId, assignedTo, environment, tags,
branch) are stripped by validation but recorded here to mirror the
source construction. -/
structure RawRecord where
  provider : String
  resultsPath : String
  credentials : String
  baseUrl : String
  failOnError : Bool
  runName : Option JVal := none
  project : Option JVal := none
  projectId : Option JVal := none
  suiteId : Option JVal := none
  milestoneId : Option JVal := none
  assignedTo : Option JVal := none
  environment : Option JVal := none
  tags : Option JVal := none
  branch : Option JVal := none

/-- One zod issue: the dotted field path together with its message. -/
structure FieldIssue where
  path : String
  message : String
deriving DecidableEq

/-- The validated provider configuration.  Both schema variants extend
the base schema with a provider literal and a project string, so they
share one field set; the provider field is the discriminant. -/
structure VariantConfig where
  provider : String
  resultsPath : String
  credentials : String
  baseUrl : String
  runName : String
  failOnError : Bool
  project : String
deriving DecidableEq

/-- The distinct error outcomes of parseConfiguration. -/
inductive ConfigError where
  | invalidInlineJson
  | validationFailed (issues : List FieldIssue)
  | malformedCredentials (message : String)
  | unsupportedProvider (provider : String)
deriving DecidableEq

instance {ε α : Type} [DecidableEq ε] [DecidableEq α] : DecidableEq (Except ε α)
  | .ok x, .ok y =>
    if h : x = y then .isTrue (congrArg Except.ok h)
    else .isFalse (fun he => h (Except.ok.inj he))
  | .error x, .error y =>
    if h : x = y then .isTrue (congrArg Except.error h)
    else .isFalse (fun he => h (Except.error.inj he))
  | .ok _, .error _ => .isFalse (fun he => nomatch he)
  | .error _, .ok _ => .isFalse (fun he => nomatch he)

/-! ### zod schema validation (src/index.ts lines 8-32, 120-149)

Each field check mirrors the corresponding zod combinator; the object
parse validates every field and reports the accumulated issues together,
as zod object parsing does. -/

def checkProviderLiteral (lit provider : String) : Except FieldIssue String :=
  if provider = lit then .ok lit
  else .error ⟨"provider", "Invalid literal value"⟩

/-- z.string().trim().min(1): the validated value is the trimmed string. -/
def checkResultsPath (s : String) : Except FieldIssue String :=
  let t := jsTrim s
  if t.data.isEmpty then .error ⟨"resultsPath", "Results path cannot be empty"⟩
  else .ok t

/-- z.string().min(1), no trim. -/
def checkCredentials (s : String) : Except FieldIssue String :=
  if s.data.isEmpty then .error ⟨"credentials", "Credentials cannot be empty"⟩
  else .ok s

/-- z.url(): the URL well-formedness test itself lives in the zod
library, so it is passed in as a predicate. -/
def checkBaseUrl (urlOk : String → Bool) (s : String) : Except FieldIssue String :=
  if urlOk s then .ok s else .error ⟨"baseUrl", "Base URL must be a valid URL"⟩

/-- z.string().trim().optional().default(generated label): an absent
value takes the generated default, a defined value must be a string and
is trimmed. -/
def checkRunName (defaultRunName : String) : Option JVal → Except FieldIssue String
  | none => .ok defaultRunName
  | some (.str s) => .ok (jsTrim s)
  | some _ => .error ⟨"runName", "Invalid input: expected string"⟩

/-- z.string() on the project field of both schema variants: any string
is accepted, the empty string included; an absent or non-string value is
an issue. -/
def checkProject : Option JVal → Except FieldIssue String
  | some (.str s) => .ok s
  | some _ => .error ⟨"project", "Invalid input: expected string"⟩
  | none => .error ⟨"project", "Invalid input: expected string, received undefined"⟩

def issuesOf {α : Type} : Except FieldIssue α → List FieldIssue
  | .error i => [i]
  | .ok _ => []

/-- Parse a raw record against the schema variant with the given
provider literal.  All field issues are accumulated and reported in one
error; unknown raw fields are stripped. -/
def zodParseVariant (lit : String) (urlOk : String → Bool)
    (defaultRunName : String) (r : RawRecord) :
    Except (List FieldIssue) VariantConfig :=
  let eProvider := checkProviderLiteral lit r.provider
  let ePath := checkResultsPath r.resultsPath
  let eCreds := checkCredentials r.credentials
  let eUrl := checkBaseUrl urlOk r.baseUrl
  let eRun := checkRunName defaultRunName r.runName
  let eProject := checkProject r.project
  match eProvider, ePath, eCreds, eUrl, eRun, eProject with
  | .ok pv, .ok pa, .ok cr, .ok u, .ok rn, .ok pj =>
      .ok { provider := pv, resultsPath := pa, credentials := cr, baseUrl := u,
            runName := rn, failOnError := r.failOnError, project := pj }
  | _, _, _, _, _, _ =>
      .error (issuesOf eProvider ++ issuesOf ePath ++ issuesOf eCreds ++
              issuesOf eUrl ++ issuesOf eRun ++ issuesOf eProject)

/-! ### Raw config assembly per provider branch (src/index.ts lines 121-149) -/

/-- The testrail branch raw config: note that the merged JSON project
value is stored under projectId and the schema field project is never
assigned. -/
def buildTestRailRaw (direct : DirectInputs) (pc : Obj) : RawRecord :=
  { provider := "testrail"
    resultsPath := direct.resultsPath
    credentials := direct.credentials
    baseUrl := direct.baseUrl
    failOnError := direct.failOnError
    projectId := pc "project_id"
    suiteId := jsOr (pc "suite_id") (pc "suiteId")
    runName := jsOr (pc "run_name") (pc "runName")
    milestoneId := jsOr (pc "milestone_id") (pc "milestoneId")
    assignedTo := jsOr (pc "assigned_to") (pc "assignedTo")
    project := none }

/-- The testfiesta branch raw config: project falls back to the empty
string when the merged JSON value is absent or falsy. -/
def buildTestfiestaRaw (direct : DirectInputs) (pc : Obj) : RawRecord :=
  { provider := "testfiesta"
    resultsPath := direct.resultsPath
    credentials := direct.credentials
    baseUrl := direct.baseUrl
    failOnError := direct.failOnError
    project := some (jsOrDefault (pc "project") (JVal.str ""))
    environment := pc "environment"
    tags := pc "tags"
    branch := pc "branch" }

/-! ### TestRail credentials post-check (src/index.ts lines 155-160) -/

/-- The destructuring `const [username, apiKey] = credentials.split(c)`:
the first two split segments, each possibly undefined. -/
def trCredSplit (credentials : String) : Option String × Option String :=
  let parts := jsSplit credentials ':'
  (parts[0]?, parts[1]?)

/-- The guard `!username || !apiKey` negated: the check passes exactly
when both destructured segments are defined and non-empty. -/
def testRailCredsOk (credentials : String) : Bool :=
  let p := trCredSplit credentials
  !(jsFalsyOptStr p.1 || jsFalsyOptStr p.2)

def testRailCredsMessage : String :=
  "TestRail credentials must be in the format \"username:apikey\""

/-- The post-schema credentials check: runs only for the testrail
discriminant and only on a non-empty credentials string. -/
def testRailPostCheck (c : VariantConfig) : Except ConfigError VariantConfig :=
  if c.provider = "testrail" && !(jsFalsyStr c.credentials) then
    if testRailCredsOk c.credentials then .ok c
    else .error (.malformedCredentials testRailCredsMessage)
  else .ok c

/-- Schema parse followed by the credentials post-check, as the try
block of parseConfiguration sequences them: the post-check is reachable
only when the schema parse succeeded. -/
def validateVariant (lit : String) (urlOk : String → Bool)
    (defaultRunName : String) (r : RawRecord) :
    Except ConfigError VariantConfig :=
  match zodParseVariant lit urlOk defaultRunName r with
  | .error issues => .error (.validationFailed issues)
  | .ok c => testRailPostCheck c

/-! ### parseConfiguration (src/index.ts lines 86-176)

External effects enter as parameters: inlineParse is the JSON.parse
result of the inline config input (none on a parse failure), filePresent
is whether a config-file path was given and exists, fileParse is the
read-and-parse result of that file (none when reading or parsing threw).
The Bool paired with the successful result records whether the
config-file warning was logged. -/

def parseConfiguration (providerInput : String) (direct : DirectInputs)
    (inlineParse : Option Obj) (filePresent : Bool) (fileParse : Option Obj)
    (urlOk : String → Bool) (defaultRunName : String) :
    Except ConfigError (VariantConfig × Bool) :=
  let provider := jsToLower providerInput
  match inlineParse with
  | none => .error .invalidInlineJson
  | some inlineObj =>
    let merged : Obj × Bool :=
      if filePresent then
        match fileParse with
        | some fileObj => (spread fileObj inlineObj, false)
        | none => (inlineObj, true)
      else (inlineObj, false)
    let result : Except ConfigError VariantConfig :=
      if provider = "testrail" then
        validateVariant "testrail" urlOk defaultRunName
          (buildTestRailRaw direct merged.1)
      else if provider = "testfiesta" then
        validateVariant "testfiesta" urlOk defaultRunName
          (buildTestfiestaRaw direct merged.1)
      else .error (.unsupportedProvider provider)
    match result with
    | .error e => .error e
    | .ok c => .ok (c, merged.2)

/-! ### Results path validation (src/index.ts lines 178-208)

The filesystem state of the configured path is a parameter; the returned
operation list records which filesystem calls the function performed, in
order. -/

inductive FsKind where
  | file
  | directory
  | other
deriving DecidableEq

structure FsEntry where
  existsSync : Bool
  kind : FsKind
  readable : Bool
deriving DecidableEq

inductive FsOp where
  | existsCheck
  | statCall
  | readdirCall
  | accessCall
deriving DecidableEq

inductive PathError where
  | notFound (p : String)
  | invalidType (p : String)
  | notReadable (p : String)
deriving DecidableEq

/-- validateProviderConfig: existence check, then file-or-directory
check on the stat result, then a representative read (directory listing
or access check) whose failure becomes the no-read-permission error. -/
def validateProviderConfig (resultsPath : String) (e : FsEntry) :
    Except PathError Unit × List FsOp :=
  if !e.existsSync then (.error (.notFound resultsPath), [.existsCheck])
  else
    match e.kind with
    | .other => (.error (.invalidType resultsPath), [.existsCheck, .statCall])
    | .directory =>
        if e.readable then (.ok (), [.existsCheck, .statCall, .readdirCall])
        else (.error (.notReadable resultsPath), [.existsCheck, .statCall, .readdirCall])
    | .file =>
        if e.readable then (.ok (), [.existsCheck, .statCall, .accessCall])
        else (.error (.notReadable resultsPath), [.existsCheck, .statCall, .accessCall])

/-! ### Result reading (src/index.ts lines 304-347, src/utils.ts) -/

/-- Node path.basename restricted to forward-slash separators. -/
def basenameOf (p : String) : String := (jsSplit p '/').getLastD ""

def lastDotIndex (cs : List Char) : Option Nat :=
  ((List.range cs.length).filter (fun i => cs.getD i ' ' = '.')).getLast?

/-- Node path.extname: the suffix of the basename from its last dot,
empty when there is no dot or the only dot leads the basename. -/
def extname (p : String) : String :=
  let b := (basenameOf p).data
  match lastDotIndex b with
  | none => ""
  | some 0 => ""
  | some i => String.mk (b.drop i)

structure RawResult where
  format : String
  content : String
  filePath : String
deriving DecidableEq

/-- readSingleTestResultFile: the file content is a parameter standing
for the fs read; only a lower-cased .xml extension yields a tagged
result, every other extension yields undefined. -/
def readSingleTestResultFile (filePath content : String) : Option RawResult :=
  let extension := jsToLower (extname filePath)
  if extension = ".xml" then
    some { format := "junit", content := content, filePath := filePath }
  else none

/-- The shape of readTestResults output: an array of per-file results
when the path is a directory, a single possibly-undefined result when it
is a file. -/
inductive TestResults where
  | fromDirectory (results : List (Option RawResult))
  | fromFile (result : Option RawResult)
deriving DecidableEq

/-- The guard of the no-test-results warning in submitTestResults:
Array.isArray(testResults) and testResults.length === 0.  A single-file
result is never an array, so it never triggers the warning. -/
def noResultsWarning : TestResults → Bool
  | .fromDirectory rs => rs.isEmpty
  | .fromFile _ => false

/-! ### Provider adapters and dispatch (src/index.ts lines 210-302) -/

structure SubmissionResult where
  submissionId : String
  resultsUrl : String
deriving DecidableEq

/-- The constructor arguments handed to the external TestRailClient. -/
structure TestRailClientArgs where
  baseUrl : String
  username : Option String
  password : Option String
deriving DecidableEq

/-- submitToTestRail: splits the credentials for the client constructor
and returns the fixed run id 1 with the run-view URL. -/
def submitToTestRail (config : VariantConfig) :
    TestRailClientArgs × SubmissionResult :=
  let creds := trCredSplit config.credentials
  ({ baseUrl := config.baseUrl, username := creds.1, password := creds.2 },
   { submissionId := "1",
     resultsUrl := config.baseUrl ++ "/index.php?/runs/view/1" })

/-- The constructor arguments handed to the external TestFiestaClient. -/
structure TestFiestaClientArgs where
  domain : String
  apiKey : String
deriving DecidableEq

/-- submitToTestfiesta: passes the base URL and the whole credentials
string to the client and returns the fixed submission id with the
run-view URL built from the base URL alone. -/
def submitToTestfiesta (config : VariantConfig) :
    TestFiestaClientArgs × SubmissionResult :=
  ({ domain := config.baseUrl, apiKey := config.credentials },
   { submissionId := "1",
     resultsUrl := config.baseUrl ++ "/runs/view/" ++ "1" })

inductive DispatchOutcome where
  | toTestRail (args : TestRailClientArgs) (outcome : SubmissionResult)
  | toTestfiesta (args : TestFiestaClientArgs) (outcome : SubmissionResult)
deriving DecidableEq

/-- submitTestResults: computes the warning guard, then dispatches on
the provider discriminant; the dispatch runs whatever the read results
were. -/
def submitTestResults (config : VariantConfig) (testResults : TestResults) :
    Bool × Except String DispatchOutcome :=
  (noResultsWarning testResults,
   if config.provider = "testrail" then
     let r := submitToTestRail config
     .ok (.toTestRail r.1 r.2)
   else if config.provider = "testfiesta" then
     let r := submitToTestfiesta config
     .ok (.toTestfiesta r.1 r.2)
   else .error "Unsupported provider")

/-! ### Spec-side comparison definition for the credentials shape -/

/-- Stated from the specification words for comparison: the credentials
split on the colon yields exactly two parts, both non-empty. -/
def specExactlyTwoNonEmptyColonParts (s : String) : Bool :=
  match jsSplit s ':' with
  | [a, b] => !a.data.isEmpty && !b.data.isEmpty
  | _ => false

/-- What the source actually tests, phrased over the split list: at
least two parts and the first two non-empty. -/
def codeFirstTwoNonEmptyColonParts (s : String) : Bool :=
  match jsSplit s ':' with
  | a :: b :: _ => !a.data.isEmpty && !b.data.isEmpty
  | _ => false

/-! ### Shared concrete fixtures -/

def emptyObj : Obj := fun _ => none

def trueUrl : String → Bool := fun _ => true

def c1Direct : DirectInputs :=
  { resultsPath := "./run.xml", credentials := "bot:tok",
    baseUrl := "https://acme.testrail.io", failOnError := false }

/-! ### Claim theorems -/

/-- Claim C1: the claim says a testrail request with all required inputs
supplied in valid shapes parses successfully.  The code disagrees: the
testrail branch stores the merged JSON project value under projectId and
never assigns the schema field project, so the schema parse fails with
the project issue on every testrail run, valid inputs or not. -/
theorem c1_testrail_valid_inputs_still_fail :
    parseConfiguration "testrail" c1Direct (some emptyObj) false none
      trueUrl "CI Run 1" =
    .error (.validationFailed
      [⟨"project", "Invalid input: expected string, received undefined"⟩]) := by
  rfl

/-- Claim C2 counterexample: for the given concrete testfiesta inputs the
returned results URL is the base URL with the fixed run-view fragment,
not the claimed baseUrl/handle/project/runs template. -/
theorem c2_results_url_counterexample :
    (submitToTestfiesta
      { provider := "testfiesta", resultsPath := "./run.xml",
        credentials := "tok123", baseUrl := "https://api.testfiesta.com",
        runName := "CI Run 1", failOnError := false,
        project := "web-app" }).2.resultsUrl =
      "https://api.testfiesta.com/runs/view/1" ∧
    (submitToTestfiesta
      { provider := "testfiesta", resultsPath := "./run.xml",
        credentials := "tok123", baseUrl := "https://api.testfiesta.com",
        runName := "CI Run 1", failOnError := false,
        project := "web-app" }).2.resultsUrl ≠
      "https://api.testfiesta.com/acme-org/web-app/runs" := by
  constructor
  · rfl
  · decide

/-- Claim C2 amended: every testfiesta submission returns the results URL
baseUrl concatenated with the fixed fragment runs/view/1, and the
submission id 1; neither handle nor project appears in the URL. -/
theorem c2_results_url_amended (config : VariantConfig) :
    (submitToTestfiesta config).2.resultsUrl =
      config.baseUrl ++ "/runs/view/" ++ "1" ∧
    (submitToTestfiesta config).2.submissionId = "1" :=
  ⟨rfl, rfl⟩

/-- Claim C3: merge precedence.  The direct named inputs always reach the
raw config untouched by either JSON source, and for any key the inline
JSON value overrides the config-file value in the merged object. -/
theorem c3_merge_precedence (direct : DirectInputs) (fileObj inlineObj : Obj)
    (k : String) (v : JVal) (hk : inlineObj k = some v) :
    (buildTestfiestaRaw direct (spread fileObj inlineObj)).resultsPath
        = direct.resultsPath ∧
    (buildTestfiestaRaw direct (spread fileObj inlineObj)).credentials
        = direct.credentials ∧
    (buildTestfiestaRaw direct (spread fileObj inlineObj)).baseUrl
        = direct.baseUrl ∧
    (buildTestfiestaRaw direct (spread fileObj inlineObj)).failOnError
        = direct.failOnError ∧
    (buildTestRailRaw direct (spread fileObj inlineObj)).resultsPath
        = direct.resultsPath ∧
    (buildTestRailRaw direct (spread fileObj inlineObj)).credentials
        = direct.credentials ∧
    (buildTestRailRaw direct (spread fileObj inlineObj)).baseUrl
        = direct.baseUrl ∧
    (buildTestRailRaw direct (spread fileObj inlineObj)).failOnError
        = direct.failOnError ∧
    spread fileObj inlineObj k = some v := by
  refine ⟨rfl, rfl, rfl, rfl, rfl, rfl, rfl, rfl, ?_⟩
  simp [spread, hk]

def c3FileObj : Obj := fun k =>
  if k = "project" then some (.str "file-proj") else none

def c3InlineObj : Obj := fun k =>
  if k = "project" then some (.str "inline-proj") else none

theorem c3_merge_precedence_witness :
    c3InlineObj "project" = some (JVal.str "inline-proj") ∧
    spread c3FileObj c3InlineObj "project" = some (JVal.str "inline-proj") ∧
    (buildTestfiestaRaw c1Direct (spread c3FileObj c3InlineObj)).credentials
        = "bot:tok" :=
  ⟨rfl,
   (c3_merge_precedence c1Direct c3FileObj c3InlineObj "project"
      (JVal.str "inline-proj") rfl).2.2.2.2.2.2.2.2,
   (c3_merge_precedence c1Direct c3FileObj c3InlineObj "project"
      (JVal.str "inline-proj") rfl).2.1⟩

/-- Claim C4: a malformed inline config is a hard error however the
other inputs look, while a present but unreadable or malformed config
file leaves the outcome exactly as if the file were absent, with the
warning flag set. -/
theorem c4_inline_hard_file_soft (providerInput : String)
    (direct : DirectInputs) (filePresent : Bool) (fileParse : Option Obj)
    (inlineObj : Obj) (urlOk : String → Bool) (d : String) :
    parseConfiguration providerInput direct none filePresent fileParse
        urlOk d = .error .invalidInlineJson ∧
    parseConfiguration providerInput direct (some inlineObj) true none
        urlOk d =
      (parseConfiguration providerInput direct (some inlineObj) false none
        urlOk d).map (fun p => (p.1, true)) := by
  constructor
  · rfl
  · unfold parseConfiguration
    simp only [if_true, Bool.false_eq_true, if_false]
    cases hr : (if jsToLower providerInput = "testrail" then
        validateVariant "testrail" urlOk d (buildTestRailRaw direct inlineObj)
      else if jsToLower providerInput = "testfiesta" then
        validateVariant "testfiesta" urlOk d (buildTestfiestaRaw direct inlineObj)
      else .error (.unsupportedProvider (jsToLower providerInput))) with
    | error e => simp only [hr]; rfl
    | ok c => simp only [hr]; rfl

/-- Claim C5 counterexample: a credentials string with two colons is
accepted by the code check, yet it does not split into exactly two
non-empty parts, refuting the claimed equivalence. -/
theorem c5_exactly_two_counterexample :
    testRailCredsOk "user:pa:ss" = true ∧
    specExactlyTwoNonEmptyColonParts "user:pa:ss" = false := by
  decide

/-- Claim C5 amended: the check accepts exactly when the colon split
has at least two parts with the first two non-empty; the concrete
examples behave as claimed, and a no-colon credentials string makes the
post-check fail with the message naming the username:apikey shape. -/
theorem c5_credentials_amended :
    (∀ s, testRailCredsOk s = codeFirstTwoNonEmptyColonParts s) ∧
    trCredSplit "alice:secret123" = (some "alice", some "secret123") ∧
    testRailCredsOk "alice:secret123" = true ∧
    testRailCredsOk "alice" = false ∧
    testRailPostCheck
      { provider := "testrail", resultsPath := "./run.xml",
        credentials := "alice", baseUrl := "https://acme.testrail.io",
        runName := "CI Run 1", failOnError := false, project := "42" } =
      .error (.malformedCredentials testRailCredsMessage) := by
  refine ⟨?_, by decide, by decide, by decide, by decide⟩
  intro s
  rcases h : jsSplit s ':' with _ | ⟨a, _ | ⟨b, rest⟩⟩ <;>
    simp [testRailCredsOk, trCredSplit, codeFirstTwoNonEmptyColonParts,
      jsFalsyOptStr, h]

/-- Claim C6 counterexample: a txt results file yields an absent result,
and the orchestrator warning guard evaluates to false on it, so no
no-test-results warning is logged, contrary to the claim. -/
theorem c6_txt_no_warning_counterexample :
    readSingleTestResultFile "./run.txt" "some text" = none ∧
    noResultsWarning (TestResults.fromFile
      (readSingleTestResultFile "./run.txt" "some text")) = false := by
  decide

/-- Claim C6 amended: an xml extension yields the tagged junit raw
result and any other extension yields absent; a single-file result never
triggers the no-test-results warning (which fires exactly on an empty
directory listing), and the submission dispatch proceeds identically
whatever the read result was. -/
theorem c6_read_result_amended (p content : String) (config : VariantConfig)
    (r : Option RawResult) :
    readSingleTestResultFile p content =
      (if jsToLower (extname p) = ".xml" then
        some { format := "junit", content := content, filePath := p }
      else none) ∧
    noResultsWarning (TestResults.fromFile r) = false ∧
    noResultsWarning (TestResults.fromDirectory []) = true ∧
    (submitTestResults config (TestResults.fromFile none)).2 =
      (submitTestResults config (TestResults.fromFile
        (some { format := "junit", content := content, filePath := p }))).2 :=
  ⟨rfl, rfl, rfl, rfl⟩

/-- Claim C7: the path checks run in order.  A missing path fails with
the not-found error after the existence check alone, with no read
attempted; an existing entry of the wrong kind fails with the distinct
invalid-type error before readability is consulted; an unreadable file
or directory fails with the permission error after the representative
read, and that error differs from not-found. -/
theorem c7_path_validation_order (p : String) (k : FsKind) (r : Bool) :
    validateProviderConfig p ⟨false, k, r⟩ =
      (.error (.notFound p), [.existsCheck]) ∧
    validateProviderConfig p ⟨true, .other, r⟩ =
      (.error (.invalidType p), [.existsCheck, .statCall]) ∧
    validateProviderConfig p ⟨true, .file, false⟩ =
      (.error (.notReadable p), [.existsCheck, .statCall, .accessCall]) ∧
    validateProviderConfig p ⟨true, .directory, false⟩ =
      (.error (.notReadable p), [.existsCheck, .statCall, .readdirCall]) ∧
    PathError.notReadable p ≠ PathError.notFound p :=
  ⟨rfl, rfl, rfl, rfl, fun h => nomatch h⟩

def c8BadRaw : RawRecord :=
  { provider := "testrail", resultsPath := "   ", credentials := "",
    baseUrl := "not-a-url", failOnError := false }

def c8UrlOk : String → Bool := fun s => s = "https://ok.example"

/-- Claim C8: a failing schema parse reports every violated field
together, each issue carrying its field path; and the credentials
post-check error can only arise from a record the schema accepted, so
structural errors always precede the semantic credentials error. -/
theorem c8_aggregation_and_ordering :
    zodParseVariant "testrail" c8UrlOk "CI Run 1" c8BadRaw =
      .error [⟨"resultsPath", "Results path cannot be empty"⟩,
              ⟨"credentials", "Credentials cannot be empty"⟩,
              ⟨"baseUrl", "Base URL must be a valid URL"⟩,
              ⟨"project", "Invalid input: expected string, received undefined"⟩] ∧
    (∀ (lit : String) (urlOk : String → Bool) (d : String) (r : RawRecord)
        (m : String),
      validateVariant lit urlOk d r = .error (.malformedCredentials m) →
      ∃ c, zodParseVariant lit urlOk d r = .ok c) := by
  constructor
  · rfl
  · intro lit urlOk d r m h
    unfold validateVariant at h
    cases hz : zodParseVariant lit urlOk d r with
    | error issues => rw [hz] at h; cases h
    | ok c => exact ⟨c, rfl⟩

def c8CredsRaw : RawRecord :=
  { provider := "testrail", resultsPath := "./run.xml",
    credentials := "alice", baseUrl := "https://ok.example",
    failOnError := false, project := some (JVal.str "42") }

theorem c8_aggregation_and_ordering_witness :
    validateVariant "testrail" c8UrlOk "CI Run 1" c8CredsRaw =
      .error (.malformedCredentials testRailCredsMessage) ∧
    ∃ c, zodParseVariant "testrail" c8UrlOk "CI Run 1" c8CredsRaw = .ok c :=
  ⟨by decide,
   c8_aggregation_and_ordering.2 "testrail" c8UrlOk "CI Run 1" c8CredsRaw
     testRailCredsMessage (by decide)⟩

def c9Direct : DirectInputs :=
  { resultsPath := "./run.xml", credentials := "tok123",
    baseUrl := "https://api.testfiesta.com", failOnError := false }

/-- Claim C9 counterexample: a testfiesta merged raw config with no
project value at all still validates successfully, producing a config
whose project is the empty string, refuting the non-empty-project
invariant. -/
theorem c9_empty_project_validates_counterexample :
    parseConfiguration "testfiesta" c9Direct (some emptyObj) false none
      trueUrl "CI Run 1" =
    .ok ({ provider := "testfiesta", resultsPath := "./run.xml",
           credentials := "tok123", baseUrl := "https://api.testfiesta.com",
           runName := "CI Run 1", failOnError := false, project := "" },
         false) := by
  rfl

/-- Claim C9 amended: the project field of a validated testfiesta config
may be empty: whenever the JSON sources carry no project key and the
remaining inputs are valid, validation succeeds with project equal to
the empty string. -/
theorem c9_project_amended (direct : DirectInputs) (urlOk : String → Bool)
    (d : String)
    (h1 : (jsTrim direct.resultsPath).data.isEmpty = false)
    (h2 : direct.credentials.data.isEmpty = false)
    (h3 : urlOk direct.baseUrl = true) :
    parseConfiguration "testfiesta" direct (some emptyObj) false none
      urlOk d =
    .ok ({ provider := "testfiesta", resultsPath := jsTrim direct.resultsPath,
           credentials := direct.credentials, baseUrl := direct.baseUrl,
           runName := d, failOnError := direct.failOnError, project := "" },
         false) := by
  have e1 : jsToLower "testfiesta" = "testfiesta" := by decide
  unfold parseConfiguration
  simp only [e1]
  have e2 : (("testfiesta" : String) = "testrail") = False := by decide
  simp only [e2, if_false, if_true, reduceIte]
  unfold validateVariant zodParseVariant buildTestfiestaRaw
  simp only [checkProviderLiteral, checkResultsPath, checkCredentials,
    checkBaseUrl, checkRunName, checkProject, emptyObj, jsOrDefault,
    h1, h2, h3, Bool.false_eq_true, if_false, if_true, reduceIte]
  unfold testRailPostCheck
  simp

def c9wDirect : DirectInputs :=
  { resultsPath := "./res.xml", credentials := "tok",
    baseUrl := "https://x.example", failOnError := true }

theorem c9_project_amended_witness :
    (jsTrim "./res.xml").data.isEmpty = false ∧
    ("tok" : String).data.isEmpty = false ∧
    parseConfiguration "testfiesta" c9wDirect (some emptyObj) false none
      trueUrl "CI Run 7" =
    .ok ({ provider := "testfiesta", resultsPath := jsTrim "./res.xml",
           credentials := "tok", baseUrl := "https://x.example",
           runName := "CI Run 7", failOnError := true, project := "" },
         false) :=
  ⟨by decide, by decide,
   c9_project_amended c9wDirect trueUrl "CI Run 7" (by decide) (by decide) rfl⟩

/-- Claim C10: a credentials string whose colon split has at least two
parts, the first two non-empty, passes the validation check, and the
adapter hands exactly the first two segments to the client as username
and password, discarding every later segment. -/
theorem c10_colon_truncation (c : String) (p0 p1 : String)
    (rest : List String) (config : VariantConfig)
    (hsplit : jsSplit c ':' = p0 :: p1 :: rest)
    (h0 : p0.data.isEmpty = false) (h1 : p1.data.isEmpty = false)
    (hc : config.credentials = c) :
    testRailCredsOk c = true ∧
    (submitToTestRail config).1.username = some p0 ∧
    (submitToTestRail config).1.password = some p1 := by
  refine ⟨?_, ?_, ?_⟩ <;>
    simp [testRailCredsOk, trCredSplit, submitToTestRail, hc, hsplit,
      jsFalsyOptStr, h0, h1]

def c10Config : VariantConfig :=
  { provider := "testrail", resultsPath := "./r.xml",
    credentials := "user:pa:ss", baseUrl := "https://acme.testrail.io",
    runName := "r", failOnError := false, project := "42" }

theorem c10_colon_truncation_witness :
    jsSplit "user:pa:ss" ':' = ["user", "pa", "ss"] ∧
    testRailCredsOk "user:pa:ss" = true ∧
    (submitToTestRail c10Config).1.username = some "user" ∧
    (submitToTestRail c10Config).1.password = some "pa" :=
  ⟨by decide,
   (c10_colon_truncation "user:pa:ss" "user" "pa" ["ss"] c10Config
     (by decide) (by decide) (by decide) rfl).1,
   (c10_colon_truncation "user:pa:ss" "user" "pa" ["ss"] c10Config
     (by decide) (by decide) (by decide) rfl).2.1,
   (c10_colon_truncation "user:pa:ss" "user" "pa" ["ss"] c10Config
     (by decide) (by decide) (by decide) rfl).2.2⟩

end TacoTruck
